import Mathlib

/-!
Verification of the TestAPI ("Clean Reader API") request admission and
accounting pipeline: API-key validation and monthly quota (app/db/crud.py),
sliding-window rate limiting (app/middleware/rate_limiter.py), billing
(app/services/billing.py, app/middleware/usage.py), the extraction endpoint's
accounting paths (app/api/v1/extract.py), usage-history pagination and alert
evaluation (app/services/billing.py).

Modelling conventions:
- Python floats are modelled as rationals (ℚ); every price in the code is a
  short decimal literal and every claim checked here is tie-free, so the
  difference between binary floating point plus Python's round-half-even and
  exact rational arithmetic with Mathlib's `round` does not affect any
  statement below.
- Timestamps are rationals (rate limiter, `time.time()`) or naturals
  (database `created_at`, `last_used_at`).
- Database rows become Lean structures; SQLAlchemy queries become list
  operations (filter / sort / drop / take).
-/

namespace TestAPI

/-! ### app/config.py : Settings (pricing and threshold defaults) -/

def base_price : ℚ := 0.0015

def large_page_price : ℚ := 0.001

def image_extraction_price : ℚ := 0.002

def pdf_extraction_price : ℚ := 0.003

def max_content_size_kb : ℚ := 500

def alert_threshold_warning : ℚ := 80

def alert_threshold_critical : ℚ := 100

/-- Python's `round(x, 6)`: round to 6 decimal places. -/
def round6 (x : ℚ) : ℚ := (round (x * 1000000) : ℚ) / 1000000

/-- Python's `round(x, 4)`. -/
def round4 (x : ℚ) : ℚ := (round (x * 10000) : ℚ) / 10000

/-- Python's `round(x, 2)`. -/
def round2 (x : ℚ) : ℚ := (round (x * 100) : ℚ) / 100

/-! ### app/config.py : TIER_CONFIG -/

/-- One entry of `TIER_CONFIG` (the fields the admission/billing core reads;
`price_monthly` and `features` are presentation-only and elided). -/
structure TierConfig where
  name : String
  monthly_limit : Option ℕ
  rate_limit_per_minute : ℕ
  rate_limit_per_day : Option ℕ
  discount : ℚ
deriving Repr, DecidableEq

def TIER_CONFIG (tier : String) : Option TierConfig :=
  if tier = "free" then some ⟨"Free", some 100, 10, some 100, 1⟩
  else if tier = "developer" then some ⟨"Developer", some 5000, 60, some 2000, 1⟩
  else if tier = "standard" then some ⟨"Standard", some 1000, 30, some 500, 1⟩
  else if tier = "pro" then some ⟨"Pro", some 25000, 300, some 10000, 9/10⟩
  else if tier = "business" then some ⟨"Business", some 100000, 1000, some 50000, 7/10⟩
  else if tier = "enterprise" then some ⟨"Enterprise", none, 5000, none, 6/10⟩
  else none

/-- `TIER_CONFIG["standard"]`, the fallback used by
`BillingService.calculate_cost` (the `"standard" in TIER_CONFIG` test in the
source is always true). -/
def standard_config : TierConfig := ⟨"Standard", some 1000, 30, some 500, 1⟩

/-! ### app/db/models.py : rows -/

/-- `APIKey` row.  `requests_this_month` is a non-negative counter. -/
structure APIKey where
  id : ℕ
  key : String
  name : String
  tier : String
  is_active : Bool
  monthly_limit : Option ℕ
  requests_this_month : ℕ
  last_used_at : Option ℕ
deriving Repr, DecidableEq

/-- `UsageLog` row. -/
structure UsageLog where
  request_id : String
  api_key_id : ℕ
  url : String
  billable_units : ℕ
  cost_usd : ℚ
  content_size_kb : Option ℚ
  output_size_kb : Option ℚ
  processing_time_ms : Option ℕ
  success : Bool
  error_code : Option String
  created_at : ℕ
deriving Repr, DecidableEq

/-! ### app/db/crud.py -/

/-- `validate_api_key`, applied to the result of the key lookup.
Returns `(is_valid, api_key, error_message)` exactly as the source does. -/
def validate_api_key (lookup : Option APIKey) : Bool × Option APIKey × Option String :=
  match lookup with
  | none => (false, none, some "Invalid API key")
  | some k =>
    if !k.is_active then (false, none, some "API key is disabled")
    else
      match k.monthly_limit with
      | some l =>
        if k.requests_this_month ≥ l then
          (false, some k, some "Monthly request limit exceeded")
        else (true, some k, none)
      | none => (true, some k, none)

/-- `increment_api_key_usage`: bump the counter, stamp `last_used_at`. -/
def increment_api_key_usage (k : APIKey) (now : ℕ) : APIKey :=
  { k with requests_this_month := k.requests_this_month + 1, last_used_at := some now }

/-! ### app/middleware/usage.py : UsageCalculator -/

namespace UsageCalculator

/-- `UsageCalculator.calculate_cost` (prices are the `Settings` defaults the
constructor copies). -/
def calculate_cost (content_size_kb : ℚ) (include_images : Bool) (is_pdf : Bool)
    (api_key : Option APIKey) : ℕ × ℚ :=
  let cost0 := base_price
  let billable_units := 1
  let cost1 := if content_size_kb > max_content_size_kb then cost0 + large_page_price else cost0
  let cost2 := if include_images then cost1 + image_extraction_price else cost1
  let cost3 := if is_pdf then cost2 + pdf_extraction_price else cost2
  let cost4 :=
    match api_key with
    | some k => if k.tier = "enterprise" then cost3 * (7/10) else cost3
    | none => cost3
  let cost5 :=
    match api_key with
    | some k => if k.tier = "free" then 0 else cost4
    | none => cost4
  (billable_units, round6 cost5)

/-- `UsageCalculator.is_billable_error`. -/
def is_billable_error (error_code : String) : Bool :=
  let non_billable := ["INVALID_API_KEY", "API_KEY_DISABLED", "RATE_LIMIT_EXCEEDED",
    "INTERNAL_ERROR", "INVALID_URL"]
  !(non_billable.contains error_code)

end UsageCalculator

/-! ### app/services/billing.py : BillingService.calculate_cost -/

namespace BillingService

/-- `BillingService.calculate_cost`: tier passed as a string, discount read
from `TIER_CONFIG` with the `TIER_CONFIG["standard"]` fallback. -/
def calculate_cost (content_size_kb : ℚ) (include_images : Bool) (is_pdf : Bool)
    (tier : String) : ℕ × ℚ :=
  if tier = "free" then (1, 0)
  else
    let cost0 := base_price
    let billable_units := 1
    let cost1 := if content_size_kb > max_content_size_kb then cost0 + large_page_price else cost0
    let cost2 := if include_images then cost1 + image_extraction_price else cost1
    let cost3 := if is_pdf then cost2 + pdf_extraction_price else cost2
    let tier_config := (TIER_CONFIG tier).getD standard_config
    (billable_units, round6 (cost3 * tier_config.discount))

end BillingService

/-! ### app/middleware/rate_limiter.py -/

/-- `RateLimitData`: per-key timestamp windows. -/
structure RateLimitData where
  minute_requests : List ℚ
  day_requests : List ℚ
deriving Repr, DecidableEq

/-- The empty tracking data a fresh `defaultdict` entry starts from. -/
def emptyRateLimitData : RateLimitData := ⟨[], []⟩

/-- `RateLimitData.cleanup_old_requests` at time `now`: keep timestamps
strictly newer than `now - 60` (minute window) and `now - 86400` (day). -/
def cleanup_old_requests (now : ℚ) (s : RateLimitData) : RateLimitData :=
  { minute_requests := s.minute_requests.filter (fun t => decide (t > now - 60)),
    day_requests := s.day_requests.filter (fun t => decide (t > now - 86400)) }

/-- `RateLimitData.add_request` at time `now`: append to both windows. -/
def add_request (now : ℚ) (s : RateLimitData) : RateLimitData :=
  { minute_requests := s.minute_requests ++ [now],
    day_requests := s.day_requests ++ [now] }

/-- The admission core of `RateLimiterMiddleware.dispatch`: `get_counts`
prunes both windows in place, the minute ceiling is checked first, then the
day ceiling (skipped when `day_limit` is `None` or `0`, per Python
truthiness), and the timestamp is recorded only when the request passes.
Returns `(allowed, window state after the call)`. -/
def dispatch (minute_limit : ℕ) (day_limit : Option ℕ) (s : RateLimitData)
    (now : ℚ) : Bool × RateLimitData :=
  let s1 := cleanup_old_requests now s
  let minute_count := s1.minute_requests.length
  let day_count := s1.day_requests.length
  if minute_count ≥ minute_limit then (false, s1)
  else
    match day_limit with
    | some d => if 0 < d ∧ day_count ≥ d then (false, s1) else (true, add_request now s1)
    | none => (true, add_request now s1)

/-- A sequence of admission checks at the given times (earlier calls first);
returns the final window state and the per-call admission decisions. -/
def run_calls (minute_limit : ℕ) (day_limit : Option ℕ) (s : RateLimitData) :
    List ℚ → RateLimitData × List Bool
  | [] => (s, [])
  | t :: ts =>
    let r := dispatch minute_limit day_limit s t
    let rest := run_calls minute_limit day_limit r.2 ts
    (rest.1, r.1 :: rest.2)

/-! ### app/api/v1/extract.py -/

/-- Outcome of the external extraction collaborator for one request. -/
inductive ExtractOutcome where
  | success (content_size_kb : ℚ) (output_size_kb : ℚ) (processing_time_ms : ℕ)
  | failure (error_code : String)
deriving Repr, DecidableEq

/-- `_error_response`: classify the error, write a failure usage log
(`billable_units` 1 or 0, `cost_usd` 0, `success` false), leave the API key
untouched (no `increment_api_key_usage` on this path). -/
def _error_response (request_id : String) (api_key : Option APIKey) (url : String)
    (error_code : String) (now : ℕ) : Option APIKey × Option UsageLog :=
  let billable := UsageCalculator.is_billable_error error_code
  (api_key,
    api_key.map fun k =>
      { request_id := request_id, api_key_id := k.id, url := url,
        billable_units := if billable then 1 else 0, cost_usd := 0,
        content_size_kb := none, output_size_kb := none, processing_time_ms := none,
        success := false, error_code := some error_code, created_at := now })

/-- The accounting effect of `extract_content`: on success, bill via
`UsageCalculator.calculate_cost` (with `is_pdf` left at its `False` default,
as the endpoint does), increment the key's usage, and log a success record;
on failure, delegate to `_error_response`.  Returns the updated key and the
usage log written. -/
def extract_content (request_id : String) (api_key : Option APIKey) (url : String)
    (include_images : Bool) (now : ℕ) (outcome : ExtractOutcome) :
    Option APIKey × Option UsageLog :=
  match outcome with
  | .success content_size_kb output_size_kb processing_time_ms =>
    let bc := UsageCalculator.calculate_cost content_size_kb include_images false api_key
    (api_key.map (increment_api_key_usage · now),
      api_key.map fun k =>
        { request_id := request_id, api_key_id := k.id, url := url,
          billable_units := bc.1, cost_usd := bc.2,
          content_size_kb := some content_size_kb,
          output_size_kb := some output_size_kb,
          processing_time_ms := some processing_time_ms,
          success := true, error_code := none, created_at := now })
  | .failure error_code => _error_response request_id api_key url error_code now

/-- One admitted-or-rejected pass of the pipeline over a single key: the auth
middleware runs `validate_api_key`; only when the key is admitted does the
endpoint run and (on success only) increment the counter. -/
def pipeline_step (k : APIKey) (outcome : ExtractOutcome) (now : ℕ) : APIKey :=
  if (validate_api_key (some k)).1 then
    ((extract_content "" (some k) "" false now outcome).1).getD k
  else k

/-- A sequential run of the pipeline: one `(outcome, time)` per request. -/
def run_pipeline (k : APIKey) : List (ExtractOutcome × ℕ) → APIKey
  | [] => k
  | e :: es => run_pipeline (pipeline_step k e.1 e.2) es

/-! ### app/services/billing.py : usage history and alerts -/

/-- Result of `BillingService.get_usage_history` (summary + pagination +
page of records; the endpoint's field projection with URL truncation is a
display concern and elided — `records` is the selected page itself). -/
structure UsageHistory where
  total_requests : ℕ
  successful_requests : ℕ
  failed_requests : ℕ
  total_cost_usd : ℚ
  success_rate : ℚ
  total : ℕ
  limit : ℕ
  offset : ℕ
  has_more : Bool
  records : List UsageLog
deriving Repr, DecidableEq

/-- `BillingService.get_usage_history` over the usage-log table `logs`:
filter to the key, count, sort newest-first (`ORDER BY created_at DESC`),
then `OFFSET offset LIMIT limit`. -/
def get_usage_history (logs : List UsageLog) (api_key_id : ℕ) (limit : ℕ)
    (offset : ℕ) : UsageHistory :=
  let mine := logs.filter (fun l => decide (l.api_key_id = api_key_id))
  let total_count := mine.length
  let sorted := mine.mergeSort (fun a b => decide (b.created_at ≤ a.created_at))
  let page := (sorted.drop offset).take limit
  let total_cost := (mine.map (·.cost_usd)).sum
  let successful_count := (mine.filter (·.success)).length
  { total_requests := total_count,
    successful_requests := successful_count,
    failed_requests := total_count - successful_count,
    total_cost_usd := round4 total_cost,
    success_rate :=
      if 0 < total_count then round2 ((successful_count : ℚ) / (total_count : ℚ) * 100) else 0,
    total := total_count, limit := limit, offset := offset,
    has_more := decide (offset + limit < total_count),
    records := page }

/-- The alert block of `BillingService.get_account_status` (lines 103–115):
`if usage_percentage:` is Python truthiness (skips `None` and `0`), then
`critical` is checked before `warning` with an `elif`, so at most one alert
is appended.  Alerts are represented by their level string; the message
strings are presentation-only and elided. -/
def compute_alerts (usage_percentage : Option ℚ) (warning : ℚ) (critical : ℚ) :
    List String :=
  match usage_percentage with
  | none => []
  | some p =>
    if p ≠ 0 then
      if p ≥ critical then ["critical"]
      else if p ≥ warning then ["warning"]
      else []
    else []

/-- A synthetic usage-log row for key 1 at time `i` (used to instantiate the
pagination claims on a 120-record account). -/
def mk_log (i : ℕ) : UsageLog := ⟨"", 1, "", 1, 0, none, none, none, true, none, i⟩

/-- A 120-record usage history for key 1, newest last. -/
def logs120 : List UsageLog := (List.range 120).map mk_log

/-! ## Theorems -/

/-- Claim C3: For tier "enterprise" (discount 0.6, base price 0.0015) with the
large-page and image surcharges triggered and no PDF surcharge,
`BillingService.calculate_cost` returns
`cost_usd = (0.0015 + 0.001 + 0.002) * 0.6 = 0.0027` (6-decimal rounded)
with one billable unit. -/
theorem enterprise_billing_cost (size : ℚ) (h : max_content_size_kb < size) :
    BillingService.calculate_cost size true false "enterprise" = (1, 27/10000) := by
  simp only [BillingService.calculate_cost, TIER_CONFIG, String.reduceEq, if_false, if_true,
    Bool.false_eq_true, gt_iff_lt, if_pos h, Option.getD_some]
  norm_num [round6, round_eq, base_price, large_page_price, image_extraction_price,
    pdf_extraction_price]

/-- Witness for C3 at content size 501 KB. -/
theorem enterprise_billing_cost_witness :
    BillingService.calculate_cost 501 true false "enterprise" = (1, 27/10000) :=
  enterprise_billing_cost 501 (by norm_num [max_content_size_kb])

/-- Claim C4 counterexample: the two billing implementations disagree already at
content size 100 KB, no images, no PDF, tier "enterprise":
`BillingService.calculate_cost` applies the TIER_CONFIG discount 0.6
(giving 0.0009) while `UsageCalculator.calculate_cost` — the implementation
the extraction endpoint actually calls — applies its hard-coded enterprise
factor 0.7 (giving 0.00105). -/
theorem billing_implementations_disagree :
    BillingService.calculate_cost 100 false false "enterprise"
      ≠ UsageCalculator.calculate_cost 100 false false
          (some ⟨1, "k", "n", "enterprise", true, none, 0, none⟩) := by
  simp only [BillingService.calculate_cost, UsageCalculator.calculate_cost, TIER_CONFIG,
    String.reduceEq]
  norm_num [round6, round_eq, base_price, large_page_price, image_extraction_price,
    pdf_extraction_price, max_content_size_kb]

/-- Claim C4 amended: the two billing implementations agree on every input whose
tier carries no discount in either implementation — i.e. any tier other than
"pro", "business" and "enterprise" (including "free", "developer",
"standard" and unknown tiers). -/
theorem billing_implementations_agree_on_undiscounted_tiers
    (size : ℚ) (inc pdf : Bool) (k : APIKey)
    (h1 : k.tier ≠ "pro") (h2 : k.tier ≠ "business") (h3 : k.tier ≠ "enterprise") :
    BillingService.calculate_cost size inc pdf k.tier
      = UsageCalculator.calculate_cost size inc pdf (some k) := by
  by_cases hf : k.tier = "free"
  · simp [BillingService.calculate_cost, UsageCalculator.calculate_cost, hf, round6]
  · have hd : ((TIER_CONFIG k.tier).getD standard_config).discount = 1 := by
      by_cases h4 : k.tier = "developer"
      · simp [TIER_CONFIG, h4]
      · by_cases h5 : k.tier = "standard"
        · simp [TIER_CONFIG, h5]
        · simp [TIER_CONFIG, hf, h1, h2, h3, h4, h5, standard_config]
    simp [BillingService.calculate_cost, UsageCalculator.calculate_cost, hf, h3, hd]

/-- Witness for the amended C4 at size 600, images on, PDF off,
a "developer"-tier key. -/
theorem billing_implementations_agree_on_undiscounted_tiers_witness :
    BillingService.calculate_cost 600 true false
        (APIKey.tier ⟨1, "k", "n", "developer", true, none, 0, none⟩)
      = UsageCalculator.calculate_cost 600 true false
          (some ⟨1, "k", "n", "developer", true, none, 0, none⟩) :=
  billing_implementations_agree_on_undiscounted_tiers 600 true false
    ⟨1, "k", "n", "developer", true, none, 0, none⟩
    (by decide) (by decide) (by decide)

/-- Claim C5: for tier "free", both billing implementations return
`(billable_units, cost_usd) = (1, 0)` for every content size and every
combination of the image and PDF flags. -/
theorem free_tier_zero_cost :
    (∀ (size : ℚ) (inc pdf : Bool),
      BillingService.calculate_cost size inc pdf "free" = (1, 0))
    ∧ ∀ (size : ℚ) (inc pdf : Bool) (k : APIKey), k.tier = "free" →
        UsageCalculator.calculate_cost size inc pdf (some k) = (1, 0) := by
  constructor
  · intro size inc pdf
    simp [BillingService.calculate_cost]
  · intro size inc pdf k h
    simp [UsageCalculator.calculate_cost, h, round6]

/-- Witness for C5 at size 1000, both flags on, a free-tier key. -/
theorem free_tier_zero_cost_witness :
    BillingService.calculate_cost 1000 true true "free" = (1, 0)
    ∧ UsageCalculator.calculate_cost 1000 true true
        (some ⟨1, "k", "n", "free", true, some 100, 0, none⟩) = (1, 0) :=
  ⟨free_tier_zero_cost.1 1000 true true,
   free_tier_zero_cost.2 1000 true true ⟨1, "k", "n", "free", true, some 100, 0, none⟩ rfl⟩

/-- Claim C6: `is_billable_error` is false for the authentication, rate-limit and
internal-fault codes and true for upstream-target failures; in particular
`FETCH_TIMEOUT` is billable while `INVALID_API_KEY` and
`RATE_LIMIT_EXCEEDED` are not. -/
theorem billable_error_codes :
    UsageCalculator.is_billable_error "FETCH_TIMEOUT" = true
    ∧ UsageCalculator.is_billable_error "FETCH_FAILED" = true
    ∧ UsageCalculator.is_billable_error "EXTRACTION_FAILED" = true
    ∧ UsageCalculator.is_billable_error "INVALID_API_KEY" = false
    ∧ UsageCalculator.is_billable_error "API_KEY_DISABLED" = false
    ∧ UsageCalculator.is_billable_error "RATE_LIMIT_EXCEEDED" = false
    ∧ UsageCalculator.is_billable_error "INTERNAL_ERROR" = false := by
  decide

/-- Claim C8: on every extraction failure with error code `ec`, the usage record
written has `billable_units = 1` iff `is_billable_error ec` (else 0),
`cost_usd = 0`, and `success = false`; and the key — hence its
`requests_this_month` quota counter — is returned unchanged. -/
theorem failure_usage_record (rid url ec : String) (inc : Bool) (k : APIKey) (now : ℕ) :
    (extract_content rid (some k) url inc now (.failure ec)).1 = some k
    ∧ ∃ log, (extract_content rid (some k) url inc now (.failure ec)).2 = some log
        ∧ log.billable_units = (if UsageCalculator.is_billable_error ec then 1 else 0)
        ∧ log.cost_usd = 0
        ∧ log.success = false
        ∧ log.error_code = some ec := by
  exact ⟨rfl, ⟨_, rfl, rfl, rfl, rfl, rfl⟩⟩

/-- Claim C10: alert evaluation emits at most one alert, checking critical before
warning: with warning = 80 and critical = 100, a usage percentage of 85
yields exactly the "warning" alert and 100 yields exactly the "critical"
alert, never both. -/
theorem alert_evaluation :
    compute_alerts (some 85) alert_threshold_warning alert_threshold_critical = ["warning"]
    ∧ compute_alerts (some 100) alert_threshold_warning alert_threshold_critical = ["critical"]
    ∧ ∀ (up : Option ℚ) (w c : ℚ), (compute_alerts up w c).length ≤ 1 := by
  refine ⟨?_, ?_, ?_⟩
  · norm_num [compute_alerts, alert_threshold_warning, alert_threshold_critical]
  · norm_num [compute_alerts, alert_threshold_warning, alert_threshold_critical]
  · intro up w c
    rcases up with _ | p
    · simp [compute_alerts]
    · simp only [compute_alerts]
      split_ifs <;> simp

/-- One pipeline step preserves the configured monthly limit and never pushes
the counter past it: an admitted step had `requests_this_month < l`, so the
post-success increment still satisfies `≤ l`; rejected or failed steps leave
the key untouched. -/
theorem pipeline_step_quota (k : APIKey) (e : ExtractOutcome) (now : ℕ) (l : ℕ)
    (hml : k.monthly_limit = some l) (hb : k.requests_this_month ≤ l) :
    (pipeline_step k e now).monthly_limit = some l
    ∧ (pipeline_step k e now).requests_this_month ≤ l := by
  unfold pipeline_step
  cases hv : (validate_api_key (some k)).1 with
  | false => simp [hv, hml, hb]
  | true =>
    have hlt : k.requests_this_month < l := by
      by_cases hc : l ≤ k.requests_this_month
      · cases hact : k.is_active with
        | false => simp [validate_api_key, hact] at hv
        | true => simp [validate_api_key, hact, hml, hc] at hv
      · omega
    cases e with
    | success a b c =>
      simp [hv, extract_content, increment_api_key_usage, hml]
      omega
    | failure ec => simp [hv, extract_content, _error_response, hml, hb]

/-- Claim C1: with `monthly_limit = some l`, the admission check rejects with
the "Monthly request limit exceeded" outcome whenever
`requests_this_month ≥ l`, and — since the counter is incremented only after
an admitted successful extraction — a sequential pipeline run started at or
below the limit never pushes `requests_this_month` past `l`. -/
theorem quota_admission_and_bound :
    (∀ (k : APIKey) (l : ℕ), k.monthly_limit = some l → k.is_active = true →
        l ≤ k.requests_this_month →
        validate_api_key (some k) = (false, some k, some "Monthly request limit exceeded"))
    ∧ ∀ (k : APIKey) (l : ℕ) (evs : List (ExtractOutcome × ℕ)),
        k.monthly_limit = some l → k.requests_this_month ≤ l →
        (run_pipeline k evs).requests_this_month ≤ l := by
  constructor
  · intro k l hml hact h
    simp [validate_api_key, hact, hml, h]
  · intro k l evs
    induction evs generalizing k with
    | nil =>
      intro hml hb
      simpa [run_pipeline] using hb
    | cons e es ih =>
      intro hml hb
      have h := pipeline_step_quota k e.1 e.2 l hml hb
      exact ih _ h.1 h.2

/-- Witness for C1: a key at its limit of 2 is rejected with the quota
message, and a run of three successful extractions from 0 stays ≤ 2. -/
theorem quota_admission_and_bound_witness :
    validate_api_key (some ⟨1, "k", "n", "free", true, some 2, 2, none⟩)
      = (false, some ⟨1, "k", "n", "free", true, some 2, 2, none⟩,
          some "Monthly request limit exceeded")
    ∧ (run_pipeline ⟨1, "k", "n", "free", true, some 2, 0, none⟩
        [(.success 1 1 1, 0), (.success 1 1 1, 1), (.success 1 1 1, 2)]).requests_this_month
        ≤ 2 :=
  ⟨quota_admission_and_bound.1 _ 2 rfl rfl (by decide),
   quota_admission_and_bound.2 _ 2 _ rfl (by decide)⟩

/-- Pruning is the identity when every recorded timestamp is inside both
windows. -/
theorem cleanup_eq_self (now : ℚ) (s : RateLimitData)
    (hm : ∀ a ∈ s.minute_requests, now - 60 < a)
    (hd : ∀ a ∈ s.day_requests, now - 86400 < a) :
    cleanup_old_requests now s = s := by
  unfold cleanup_old_requests
  cases s with
  | mk m d =>
    simp only [RateLimitData.mk.injEq]
    constructor
    · exact List.filter_eq_self.mpr fun a ha => by simpa using hm a ha
    · exact List.filter_eq_self.mpr fun a ha => by simpa using hd a ha

/-- With no day ceiling, an admission check passes exactly when the pruned
minute window holds fewer than `n` timestamps. -/
theorem dispatch_fst_iff (n : ℕ) (s : RateLimitData) (u : ℚ) :
    ((dispatch n none s u).1 = true
      ↔ (cleanup_old_requests u s).minute_requests.length < n) := by
  simp only [dispatch]
  split_ifs with h
  · simp
    omega
  · simp
    omega

/-- `run_calls` splits over list append. -/
theorem run_calls_append (n : ℕ) (dl : Option ℕ) (s : RateLimitData) (l1 l2 : List ℚ) :
    run_calls n dl s (l1 ++ l2)
      = ((run_calls n dl (run_calls n dl s l1).1 l2).1,
         (run_calls n dl s l1).2 ++ (run_calls n dl (run_calls n dl s l1).1 l2).2) := by
  induction l1 generalizing s with
  | nil => simp [run_calls]
  | cons t ts ih => simp [run_calls, ih]

/-- A batch of calls whose timestamps sit mutually within 60 seconds and fit
under the minute ceiling is admitted in full, and the windows end up holding
exactly those timestamps. -/
theorem run_admits (ts : List ℚ) : ∀ (acc : List ℚ) (n : ℕ),
    acc.length + ts.length ≤ n →
    (∀ a ∈ acc ++ ts, ∀ b ∈ acc ++ ts, a - b < 60) →
    run_calls n none ⟨acc, acc⟩ ts = (⟨acc ++ ts, acc ++ ts⟩, List.replicate ts.length true) := by
  induction ts with
  | nil =>
    intro acc n _ _
    simp [run_calls]
  | cons t ts ih =>
    intro acc n hlen hspan
    have hlen2 : acc.length + ts.length + 1 ≤ n := by
      simp at hlen
      omega
    have htm : t ∈ acc ++ t :: ts := by simp
    have hclean : cleanup_old_requests t ⟨acc, acc⟩ = ⟨acc, acc⟩ := by
      refine cleanup_eq_self t _ (fun a ha => ?_) (fun a ha => ?_)
      · have := hspan t htm a (by simp [ha])
        linarith
      · have := hspan t htm a (by simp [ha])
        linarith
    have hstep : dispatch n none ⟨acc, acc⟩ t = (true, ⟨acc ++ [t], acc ++ [t]⟩) := by
      unfold dispatch
      rw [hclean]
      rw [if_neg (by simp; omega)]
      simp [add_request]
    have hrec := ih (acc ++ [t]) n (by simp; omega)
      (by simpa [List.append_assoc] using hspan)
    simp only [run_calls, hstep, hrec]
    simp [List.append_assoc, List.replicate_succ]

/-- Claim C2: with a per-minute ceiling `n` (and no day ceiling), given
`n + 1` calls whose timestamps are ordered and all within one trailing
60-second window, the limiter admits the first `n` and denies the
`(n+1)`-th; afterwards a call at any later time `u` is admitted exactly when
the oldest recorded timestamp has aged at least 60 seconds
(`t0 + 60 ≤ u`).  The timestamp comparison is strict pruning
(`t > now - 60`) before counting, and counting happens before recording. -/
theorem rate_limiter_sliding_window (n : ℕ) (hn : 0 < n) (ts : List ℚ)
    (hlen : ts.length = n + 1) (hsort : ts.Sorted (· ≤ ·))
    (hspan : ∀ a ∈ ts, ∀ b ∈ ts, a - b < 60) :
    (run_calls n none emptyRateLimitData ts).2 = List.replicate n true ++ [false]
    ∧ ∀ (u t0 : ℚ), ts.head? = some t0 → (∀ a ∈ ts, a ≤ u) →
        ((dispatch n none (run_calls n none emptyRateLimitData ts).1 u).1 = true
          ↔ t0 + 60 ≤ u) := by
  have hne : ts ≠ [] := by
    intro h
    rw [h] at hlen
    simp at hlen
  have hts : ts.dropLast ++ [ts.getLast hne] = ts := List.dropLast_append_getLast hne
  have hflen : ts.dropLast.length = n := by
    rw [List.length_dropLast, hlen]
    omega
  have hsub : ∀ a ∈ ts.dropLast, a ∈ ts := fun a ha => (List.dropLast_sublist ts).subset ha
  have htl_mem : ts.getLast hne ∈ ts := List.getLast_mem hne
  have hfront_run : run_calls n none emptyRateLimitData ts.dropLast
      = (⟨ts.dropLast, ts.dropLast⟩, List.replicate n true) := by
    have h := run_admits ts.dropLast [] n (by simp [hflen])
      (by intro a ha b hb
          simp only [List.nil_append] at ha hb
          exact hspan a (hsub a ha) b (hsub b hb))
    simpa [emptyRateLimitData, hflen] using h
  have hclean2 : cleanup_old_requests (ts.getLast hne) ⟨ts.dropLast, ts.dropLast⟩
      = ⟨ts.dropLast, ts.dropLast⟩ := by
    refine cleanup_eq_self _ _ (fun a ha => ?_) (fun a ha => ?_)
    · have := hspan (ts.getLast hne) htl_mem a (hsub a ha)
      linarith
    · have := hspan (ts.getLast hne) htl_mem a (hsub a ha)
      linarith
  have hlast : dispatch n none ⟨ts.dropLast, ts.dropLast⟩ (ts.getLast hne)
      = (false, ⟨ts.dropLast, ts.dropLast⟩) := by
    simp only [dispatch, hclean2]
    rw [if_pos (by simp [hflen])]
  have hstate : run_calls n none emptyRateLimitData ts
      = (⟨ts.dropLast, ts.dropLast⟩, List.replicate n true ++ [false]) := by
    rw [← hts, run_calls_append, hfront_run]
    simp [run_calls, hlast]
  constructor
  · simp [hstate]
  · intro u t0 hh hu
    rw [hstate]
    rw [dispatch_fst_iff]
    obtain ⟨rest, hts_eq⟩ : ∃ rest, ts = t0 :: rest := by
      cases ts with
      | nil => simp at hh
      | cons a rest =>
        simp at hh
        exact ⟨rest, by rw [hh]⟩
    have ht0f : t0 ∈ ts.dropLast := by
      rw [hts_eq]
      rcases rest with _ | ⟨b, rest2⟩
      · rw [hts_eq] at hlen
        simp at hlen
        omega
      · exact List.mem_cons_self t0 _
    have hmin : ∀ a ∈ ts, t0 ≤ a := by
      rw [hts_eq] at hsort ⊢
      intro a ha
      rcases List.mem_cons.mp ha with rfl | ha2
      · exact le_refl a
      · exact (List.sorted_cons.mp hsort).1 a ha2
    have hmr : (cleanup_old_requests u
          (⟨ts.dropLast, ts.dropLast⟩ : RateLimitData)).minute_requests
        = ts.dropLast.filter (fun t => decide (t > u - 60)) := rfl
    by_cases h60 : t0 + 60 ≤ u
    · simp only [h60, iff_true]
      rw [hmr, ← hflen]
      exact List.length_filter_lt_length_iff_exists.mpr
        ⟨t0, ht0f, by simp; linarith⟩
    · simp only [h60, iff_false, not_lt]
      have hfe : ts.dropLast.filter (fun t => decide (t > u - 60)) = ts.dropLast := by
        refine List.filter_eq_self.mpr fun a ha => ?_
        have h1 : t0 ≤ a := hmin a (hsub a ha)
        simp
        push_neg at h60
        linarith
      rw [hmr, hfe, hflen]

/-- Witness for C2 with ceiling 1 and calls at times 0 and 10: the first is
admitted, the second denied, and a call at time 70 (the oldest timestamp
aged 60s or more) is admitted again. -/
theorem rate_limiter_sliding_window_witness :
    (run_calls 1 none emptyRateLimitData [0, 10]).2 = [true, false]
    ∧ (dispatch 1 none (run_calls 1 none emptyRateLimitData [0, 10]).1 70).1 = true := by
  have h := rate_limiter_sliding_window 1 one_pos [0, 10] rfl
    (by norm_num [List.sorted_cons])
    (by intro a ha b hb; fin_cases ha <;> fin_cases hb <;> norm_num)
  refine ⟨by simpa using h.1,
    (h.2 70 0 rfl (by intro a ha; fin_cases ha <;> norm_num)).mpr (by norm_num)⟩

/-- Claim C7: when an admission check is denied (by either ceiling), the
window state equals its pruned pre-check state — the new timestamp is not
recorded; it is recorded into both windows only when the request is
allowed. -/
theorem denial_records_no_timestamp (ml : ℕ) (dl : Option ℕ) (s : RateLimitData) (now : ℚ) :
    ((dispatch ml dl s now).1 = false →
      (dispatch ml dl s now).2 = cleanup_old_requests now s)
    ∧ ((dispatch ml dl s now).1 = true →
      (dispatch ml dl s now).2 = add_request now (cleanup_old_requests now s)) := by
  rcases dl with _ | d
  · simp only [dispatch]
    split_ifs with h <;> simp
  · simp only [dispatch]
    split_ifs with h h2 <;> simp

/-- Witness for C7: a denial at time 30 against a full window of one leaves
the pruned state; an allowance at time 100 appends the timestamp. -/
theorem denial_records_no_timestamp_witness :
    (dispatch 1 none ⟨[0], [0]⟩ 30).2 = cleanup_old_requests 30 ⟨[0], [0]⟩
    ∧ (dispatch 1 none ⟨[0], [0]⟩ 100).2
        = add_request 100 (cleanup_old_requests 100 ⟨[0], [0]⟩) :=
  ⟨(denial_records_no_timestamp 1 none ⟨[0], [0]⟩ 30).1
      (by norm_num [dispatch, cleanup_old_requests, List.filter_cons, List.filter_nil,
        decide_eq_true_eq]),
   (denial_records_no_timestamp 1 none ⟨[0], [0]⟩ 100).2
      (by norm_num [dispatch, cleanup_old_requests, add_request, List.filter_cons,
        List.filter_nil, decide_eq_true_eq])⟩

/-- Claim C9: usage-history pagination returns
`min limit (total - offset)` records, newest-first (non-increasing
`created_at`), with `has_more = (offset + limit < total)`; in particular an
account with 120 records yields 50 records and `has_more = true` at
`limit = 50, offset = 0`, and 20 records with `has_more = false` at
`offset = 100`. -/
theorem usage_history_pagination :
    (∀ (logs : List UsageLog) (kid limit offset : ℕ),
        (get_usage_history logs kid limit offset).records.length
          = min limit ((get_usage_history logs kid limit offset).total - offset)
        ∧ ((get_usage_history logs kid limit offset).has_more = true
            ↔ offset + limit < (get_usage_history logs kid limit offset).total)
        ∧ (get_usage_history logs kid limit offset).records.Pairwise
            (fun a b => b.created_at ≤ a.created_at))
    ∧ (get_usage_history logs120 1 50 0).records.length = 50
    ∧ (get_usage_history logs120 1 50 0).has_more = true
    ∧ (get_usage_history logs120 1 50 100).records.length = 20
    ∧ (get_usage_history logs120 1 50 100).has_more = false := by
  have hgen : ∀ (logs : List UsageLog) (kid limit offset : ℕ),
      (get_usage_history logs kid limit offset).records.length
        = min limit ((get_usage_history logs kid limit offset).total - offset)
      ∧ ((get_usage_history logs kid limit offset).has_more = true
          ↔ offset + limit < (get_usage_history logs kid limit offset).total)
      ∧ (get_usage_history logs kid limit offset).records.Pairwise
          (fun a b => b.created_at ≤ a.created_at) := by
    intro logs kid limit offset
    refine ⟨?_, ?_, ?_⟩
    · simp only [get_usage_history]
      rw [List.length_take, List.length_drop, List.length_mergeSort]
    · simp only [get_usage_history]
      simp [decide_eq_true_eq]
    · simp only [get_usage_history]
      have hs := @List.sorted_mergeSort UsageLog
        (fun a b : UsageLog => decide (b.created_at ≤ a.created_at))
        (fun a b c hab hbc => by
          simp only [decide_eq_true_eq] at hab hbc ⊢
          exact le_trans hbc hab)
        (fun a b => by
          simp only [Bool.or_eq_true, decide_eq_true_eq]
          exact le_total b.created_at a.created_at)
        (logs.filter fun l => decide (l.api_key_id = kid))
      have hsub := (List.take_sublist limit
          (((logs.filter fun l => decide (l.api_key_id = kid)).mergeSort
            (fun a b => decide (b.created_at ≤ a.created_at))).drop offset)).trans
        (List.drop_sublist offset
          ((logs.filter fun l => decide (l.api_key_id = kid)).mergeSort
            (fun a b => decide (b.created_at ≤ a.created_at))))
      exact List.Pairwise.sublist hsub (hs.imp fun h => by simpa using h)
  have htot0 : (get_usage_history logs120 1 50 0).total = 120 := by
    have hf : (logs120.filter fun l => decide (l.api_key_id = 1)) = logs120 := by
      refine List.filter_eq_self.mpr fun a ha => ?_
      simp only [logs120, List.mem_map] at ha
      obtain ⟨i, _, rfl⟩ := ha
      simp [mk_log]
    simp only [get_usage_history, hf, logs120]
    rfl
  have htot100 : (get_usage_history logs120 1 50 100).total = 120 := by
    have hf : (logs120.filter fun l => decide (l.api_key_id = 1)) = logs120 := by
      refine List.filter_eq_self.mpr fun a ha => ?_
      simp only [logs120, List.mem_map] at ha
      obtain ⟨i, _, rfl⟩ := ha
      simp [mk_log]
    simp only [get_usage_history, hf, logs120]
    rfl
  refine ⟨hgen, ?_, ?_, ?_, ?_⟩
  · rw [(hgen logs120 1 50 0).1, htot0]
    omega
  · exact (hgen logs120 1 50 0).2.1.mpr (by rw [htot0]; norm_num)
  · rw [(hgen logs120 1 50 100).1, htot100]
    omega
  · cases hb : (get_usage_history logs120 1 50 100).has_more with
    | false => rfl
    | true =>
      have := ((hgen logs120 1 50 100).2.1).mp hb
      rw [htot100] at this
      omega

end TestAPI
